import Mathlib

/-!
Shallow embedding of the ErriezBMX280 BMP280/BME280 sensor driver
(files `ErriezBMX280.h` / `ErriezBMX280.cpp`) and proofs about it.

Machine integers are modelled as `Int`/`Nat` with explicit two's-complement
wrapping (`wrap32`, `wrap64`, `wrap16`) at every C arithmetic operation whose
result is stored in a fixed-width signed type.  Right shift of a signed value
is the arithmetic shift (floor division by a power of two, `sar`), and C `/`
on signed integers is truncation toward zero (`Int.tdiv`).  The I2C bus is an
oracle (`Bus`): a static register file, a time-indexed sequence of status
register values, and a per-register transport-failure flag (`endTransmission`
returning non-zero).  Driver operations return their result together with the
updated session state and the list of bus transactions they performed.
-/

namespace BMX280

/-- Two's-complement wrap-around into the signed 16-bit range. -/
def wrap16 (x : Int) : Int := (x + 2 ^ 15) % (2 ^ 16) - 2 ^ 15

/-- Two's-complement wrap-around into the signed 32-bit range
(the semantics of storing a value in an `int32_t`). -/
def wrap32 (x : Int) : Int := (x + 2 ^ 31) % (2 ^ 32) - 2 ^ 31

/-- Two's-complement wrap-around into the signed 64-bit range
(the semantics of storing a value in an `int64_t`). -/
def wrap64 (x : Int) : Int := (x + 2 ^ 63) % (2 ^ 64) - 2 ^ 63

/-- Arithmetic shift right on a signed value: C `>>` on `int32_t`/`int64_t`. -/
def sar (x : Int) (n : Nat) : Int := Int.fdiv x (2 ^ n)

/-- Reinterpret a byte as a signed 8-bit value (C cast to `int8_t`). -/
def toS8 (b : Nat) : Int :=
  if b % 256 < 128 then (b % 256 : Int) else (b % 256 : Int) - 256

/-- Reinterpret a 16-bit value as signed (C cast to `int16_t`). -/
def toS16 (v : Nat) : Int :=
  if v % 65536 < 32768 then (v % 65536 : Int) else (v % 65536 : Int) - 65536

/-- The unsigned 32-bit pattern of a signed value (for bitwise `|` on `int`). -/
def u32 (x : Int) : Nat := (x % (2 ^ 32)).toNat

/-- C bitwise `|` on 32-bit signed operands: or the two's-complement patterns
and reinterpret as signed. -/
def or32 (a b : Int) : Int := wrap32 ((u32 a ||| u32 b : Nat) : Int)

/-! ### Register map and constants (ErriezBMX280.h) -/

def BMX280_REG_DIG_T1 : Nat := 0x88
def BMX280_REG_DIG_T2 : Nat := 0x8A
def BMX280_REG_DIG_T3 : Nat := 0x8C
def BMX280_REG_DIG_P1 : Nat := 0x8E
def BMX280_REG_DIG_P2 : Nat := 0x90
def BMX280_REG_DIG_P3 : Nat := 0x92
def BMX280_REG_DIG_P4 : Nat := 0x94
def BMX280_REG_DIG_P5 : Nat := 0x96
def BMX280_REG_DIG_P6 : Nat := 0x98
def BMX280_REG_DIG_P7 : Nat := 0x9A
def BMX280_REG_DIG_P8 : Nat := 0x9C
def BMX280_REG_DIG_P9 : Nat := 0x9E
def BME280_REG_DIG_H1 : Nat := 0xA1
def BME280_REG_DIG_H2 : Nat := 0xE1
def BME280_REG_DIG_H3 : Nat := 0xE3
def BME280_REG_DIG_H4 : Nat := 0xE4
def BME280_REG_DIG_H5 : Nat := 0xE5
def BME280_REG_DIG_H6 : Nat := 0xE7
def BME280_REG_CHIPID : Nat := 0xD0
def BME280_REG_RESET : Nat := 0xE0
def BME280_REG_CTRL_HUM : Nat := 0xF2
def BMX280_REG_STATUS : Nat := 0xF3
def BMX280_REG_CTRL_MEAS : Nat := 0xF4
def BMX280_REG_CONFIG : Nat := 0xF5
def BMX280_REG_PRESS : Nat := 0xF7
def BMX280_REG_TEMP : Nat := 0xFA
def BME280_REG_HUM : Nat := 0xFD
def CHIP_ID_BMP280 : Nat := 0x58
def CHIP_ID_BME280 : Nat := 0x60
def RESET_KEY : Nat := 0xB6
def STATUS_IM_UPDATE : Nat := 0

/-- `BMX280_Mode_e` (ctrl_meas mode bits). -/
inductive BMX280_Mode_e
  | sleep
  | forced
  | normal
  deriving DecidableEq

/-- Numeric codes of `BMX280_Mode_e`. -/
def modeCode : BMX280_Mode_e → Nat
  | .sleep => 0b00
  | .forced => 0b01
  | .normal => 0b11

/-- `BMX280_Sampling_e` (ctrl_hum / ctrl_meas oversampling bits). -/
inductive BMX280_Sampling_e
  | none
  | x1
  | x2
  | x4
  | x8
  | x16
  deriving DecidableEq

/-- Numeric codes of `BMX280_Sampling_e`. -/
def samplingCode : BMX280_Sampling_e → Nat
  | .none => 0b000
  | .x1 => 0b001
  | .x2 => 0b010
  | .x4 => 0b011
  | .x8 => 0b100
  | .x16 => 0b101

/-- `BMX280_Filter_e` (config register filter bits). -/
inductive BMX280_Filter_e
  | off
  | x2
  | x4
  | x8
  | x16
  deriving DecidableEq

/-- Numeric codes of `BMX280_Filter_e`. -/
def filterCode : BMX280_Filter_e → Nat
  | .off => 0b000
  | .x2 => 0b001
  | .x4 => 0b010
  | .x8 => 0b011
  | .x16 => 0b100

/-- `BMX280_Standby_e` (config register standby-duration bits). -/
inductive BMX280_Standby_e
  | ms0_5
  | ms10
  | ms20
  | ms62_5
  | ms125
  | ms250
  | ms500
  | ms1000
  deriving DecidableEq

/-- Numeric codes of `BMX280_Standby_e`. -/
def standbyCode : BMX280_Standby_e → Nat
  | .ms0_5 => 0b000
  | .ms10 => 0b110
  | .ms20 => 0b111
  | .ms62_5 => 0b001
  | .ms125 => 0b010
  | .ms250 => 0b011
  | .ms500 => 0b100
  | .ms1000 => 0b101

/-! ### Bus model and transaction events -/

/-- The I2C device as seen by the driver: a static register file `regs`
(one byte per register address, taken mod 256), the time-indexed sequence
`statusSeq` of values the status register delivers on its successive reads
(it changes while the device copies NVM data), and `fail r = true` when
`Wire.endTransmission()` returns non-zero for a transaction addressing
register `r`. -/
structure Bus where
  regs : Nat → Nat
  statusSeq : Nat → Nat
  fail : Nat → Bool

/-- One bus transaction performed by the driver. -/
inductive Event
  | readReg (reg : Nat) (count : Nat)
  | writeReg (reg : Nat) (value : Nat)
  deriving DecidableEq

/-- The driver session state: the fields of class `ErriezBMX280`. -/
structure DriverState where
  chipID : Nat
  t_fine : Int
  dig_T1 : Int
  dig_T2 : Int
  dig_T3 : Int
  dig_P1 : Int
  dig_P2 : Int
  dig_P3 : Int
  dig_P4 : Int
  dig_P5 : Int
  dig_P6 : Int
  dig_P7 : Int
  dig_P8 : Int
  dig_P9 : Int
  dig_H1 : Int
  dig_H2 : Int
  dig_H3 : Int
  dig_H4 : Int
  dig_H5 : Int
  dig_H6 : Int
  deriving DecidableEq

/-- The state right after the constructor: `_t_fine` is initialised to 0,
every other field is left at 0. -/
def initState : DriverState :=
  ⟨0, 0, 0, 0, 0, 0, 0, 0, 0, 0, 0, 0, 0, 0, 0, 0, 0, 0, 0, 0⟩

/-- `read8`: returns 0 when `endTransmission` fails, else the register byte. -/
def read8val (bus : Bus) (reg : Nat) : Nat :=
  if bus.fail reg then 0 else bus.regs reg % 256

/-- `read16`: returns 0 on transport failure, else the two bytes assembled
big-endian (`(Wire.read() << 8) | Wire.read()`). -/
def read16val (bus : Bus) (reg : Nat) : Nat :=
  if bus.fail reg then 0
  else ((bus.regs reg % 256) <<< 8) ||| (bus.regs (reg + 1) % 256)

/-- `read16_LE`: byte-swap of `read16`, truncated back to `uint16_t`. -/
def read16LEval (bus : Bus) (reg : Nat) : Nat :=
  ((read16val bus reg >>> 8) ||| (read16val bus reg <<< 8)) % 65536

/-- `readS16_LE`: `read16_LE` reinterpreted as `int16_t`. -/
def readS16LEval (bus : Bus) (reg : Nat) : Int :=
  toS16 (read16LEval bus reg)

/-- `read24`: three bytes assembled big-endian; the code never checks
`endTransmission` here, so the bytes are delivered regardless of `fail`. -/
def read24val (bus : Bus) (reg : Nat) : Nat :=
  ((((bus.regs reg % 256) <<< 8) ||| (bus.regs (reg + 1) % 256)) <<< 8) |||
    (bus.regs (reg + 2) % 256)

/-- The value delivered by the `i`-th read of the status register inside the
`begin` poll loop (`read8` applied to `BMX280_REG_STATUS` at poll index `i`). -/
def statusRead (bus : Bus) (i : Nat) : Nat :=
  if bus.fail BMX280_REG_STATUS then 0 else bus.statusSeq i % 256

/-- `write8` produces a write transaction; the value is truncated to a byte
by the `uint8_t` parameter type. -/
def write8ev (reg val : Nat) : Event :=
  Event.writeReg reg (val % 256)

/-! ### ErriezBMX280::readTemperature (ErriezBMX280.cpp lines 104-125) -/

/-- `readTemperature`: reads the 24-bit temperature register, runs the
datasheet 4.2.3 compensation in `int32_t` arithmetic, stores `_t_fine` and
returns the Celsius value (the final float division is modelled exactly
over `ℚ`). -/
def readTemperature (bus : Bus) (st : DriverState) :
    ℚ × DriverState × List Event :=
  let adc_T0 : Int := ((read24val bus BMX280_REG_TEMP : Nat) : Int)
  let adc_T : Int := sar adc_T0 4
  let var1 : Int :=
    sar (wrap32 (wrap32 (sar adc_T 3 - wrap32 (st.dig_T1 * 2 ^ 1)) * st.dig_T2)) 11
  let var2 : Int :=
    sar (wrap32 (sar (wrap32 (wrap32 (sar adc_T 4 - st.dig_T1) *
      wrap32 (sar adc_T 4 - st.dig_T1))) 12 * st.dig_T3)) 14
  let tfine : Int := wrap32 (var1 + var2)
  let temperature : Int := sar (wrap32 (wrap32 (tfine * 5) + 128)) 8
  ((temperature : ℚ) / 100,
   { st with t_fine := tfine },
   [Event.readReg BMX280_REG_TEMP 3])

/-! ### ErriezBMX280::readPressure (ErriezBMX280.cpp lines 132-165) -/

/-- The pure pressure compensation (ErriezBMX280.cpp lines 147-164), in
`int64_t` arithmetic, given `_t_fine`, the shifted raw value `adc_P` and the
nine pressure coefficients. -/
def pressureComp (t_fine adc_P P1 P2 P3 P4 P5 P6 P7 P8 P9 : Int) : ℚ :=
  let v1a : Int := wrap64 (t_fine - 128000)
  let v2a : Int := wrap64 (wrap64 (v1a * v1a) * P6)
  let v2b : Int := wrap64 (v2a + wrap64 (wrap64 (v1a * P5) * 2 ^ 17))
  let v2c : Int := wrap64 (v2b + wrap64 (P4 * 2 ^ 35))
  let v1b : Int :=
    wrap64 (sar (wrap64 (wrap64 (v1a * v1a) * P3)) 8 +
      wrap64 (wrap64 (v1a * P2) * 2 ^ 12))
  let v1c : Int := sar (wrap64 (wrap64 (2 ^ 47 + v1b) * P1)) 33
  if v1c = 0 then 0
  else
    let p0 : Int := wrap64 (1048576 - adc_P)
    let p1 : Int :=
      wrap64 (Int.tdiv (wrap64 (wrap64 (wrap64 (p0 * 2 ^ 31) - v2c) * 3125)) v1c)
    let v1d : Int := sar (wrap64 (wrap64 (P9 * sar p1 13) * sar p1 13)) 25
    let v2d : Int := sar (wrap64 (P8 * p1)) 19
    let pfin : Int :=
      wrap64 (sar (wrap64 (wrap64 (p1 + v1d) + v2d)) 8 + wrap64 (P7 * 2 ^ 4))
    (pfin : ℚ) / 256

/-- `readPressure`: refreshes `_t_fine` through `readTemperature`, then reads
the 24-bit pressure register and runs the compensation. -/
def readPressure (bus : Bus) (st : DriverState) :
    ℚ × DriverState × List Event :=
  let tr := readTemperature bus st
  let st1 := tr.2.1
  let adc_P : Int := sar ((read24val bus BMX280_REG_PRESS : Nat) : Int) 4
  (pressureComp st1.t_fine adc_P st1.dig_P1 st1.dig_P2 st1.dig_P3 st1.dig_P4
     st1.dig_P5 st1.dig_P6 st1.dig_P7 st1.dig_P8 st1.dig_P9,
   st1,
   tr.2.2 ++ [Event.readReg BMX280_REG_PRESS 3])

/-! ### ErriezBMX280::readHumidity (ErriezBMX280.cpp lines 187-223) -/

/-- The pure humidity compensation (ErriezBMX280.cpp lines 204-222), in
`int32_t` arithmetic, given `_t_fine`, the raw value `adc_H` and the six
humidity coefficients; ends with the clamp to `[0, 419430400]` and the
final `(v >> 12) / 1024.0` scaling. -/
def humidityComp (t_fine adc_H H1 H2 H3 H4 H5 H6 : Int) : ℚ :=
  let v0 : Int := wrap32 (t_fine - 76800)
  let t1 : Int :=
    sar (wrap32 (wrap32 (wrap32 (wrap32 (adc_H * 2 ^ 14) - wrap32 (H4 * 2 ^ 20)) -
      wrap32 (H5 * v0)) + 16384)) 15
  let t2 : Int :=
    sar (wrap32 (wrap32 (wrap32 (sar (wrap32 (sar (wrap32 (v0 * H6)) 10 *
      wrap32 (sar (wrap32 (v0 * H3)) 11 + 32768))) 10 + 2097152) * H2) + 8192)) 14
  let va : Int := wrap32 (t1 * t2)
  let vb : Int :=
    wrap32 (va - sar (wrap32 (sar (wrap32 (sar va 15 * sar va 15)) 7 * H1)) 4)
  let vc : Int := if vb < 0 then 0 else vb
  let vd : Int := if vc > 419430400 then 419430400 else vc
  (sar vd 12 : ℚ) / 1024

/-- `readHumidity`: returns 0 at once unless the chip is a BME280; otherwise
refreshes `_t_fine` through `readTemperature`, reads the 16-bit humidity
register and runs the compensation. -/
def readHumidity (bus : Bus) (st : DriverState) :
    ℚ × DriverState × List Event :=
  if st.chipID ≠ CHIP_ID_BME280 then (0, st, [])
  else
    let tr := readTemperature bus st
    let st1 := tr.2.1
    let adc_H : Int := ((read16val bus BME280_REG_HUM : Nat) : Int)
    (humidityComp st1.t_fine adc_H st1.dig_H1 st1.dig_H2 st1.dig_H3 st1.dig_H4
       st1.dig_H5 st1.dig_H6,
     st1,
     tr.2.2 ++ [Event.readReg BME280_REG_HUM 2])

/-! ### ErriezBMX280::readCoefficients (ErriezBMX280.cpp lines 228-252) -/

/-- The two's-complement assembly of `_dig_H4`:
`((int8_t) read8(E4) << 4) | (read8(E4+1) & 0xF)`, stored into an
`int16_t`. -/
def digH4val (b0 b1 : Nat) : Int :=
  wrap16 (or32 (wrap32 (toS8 b0 * 2 ^ 4)) ((b1 &&& 0xF : Nat) : Int))

/-- The two's-complement assembly of `_dig_H5`:
`((int8_t) read8(E5+1) << 4) | (read8(E5) >> 4)`, stored into an
`int16_t`. -/
def digH5val (b1 b0 : Nat) : Int :=
  wrap16 (or32 (wrap32 (toS8 b1 * 2 ^ 4)) ((b0 >>> 4 : Nat) : Int))

/-- `readCoefficients`: reads and decodes the trimming parameters; the
humidity block only when the chip is a BME280. -/
def readCoefficients (bus : Bus) (st : DriverState) :
    DriverState × List Event :=
  let st1 : DriverState :=
    { st with
      dig_T1 := ((read16LEval bus BMX280_REG_DIG_T1 : Nat) : Int)
      dig_T2 := readS16LEval bus BMX280_REG_DIG_T2
      dig_T3 := readS16LEval bus BMX280_REG_DIG_T3
      dig_P1 := ((read16LEval bus BMX280_REG_DIG_P1 : Nat) : Int)
      dig_P2 := readS16LEval bus BMX280_REG_DIG_P2
      dig_P3 := readS16LEval bus BMX280_REG_DIG_P3
      dig_P4 := readS16LEval bus BMX280_REG_DIG_P4
      dig_P5 := readS16LEval bus BMX280_REG_DIG_P5
      dig_P6 := readS16LEval bus BMX280_REG_DIG_P6
      dig_P7 := readS16LEval bus BMX280_REG_DIG_P7
      dig_P8 := readS16LEval bus BMX280_REG_DIG_P8
      dig_P9 := readS16LEval bus BMX280_REG_DIG_P9 }
  let evs : List Event :=
    [Event.readReg BMX280_REG_DIG_T1 2, Event.readReg BMX280_REG_DIG_T2 2,
     Event.readReg BMX280_REG_DIG_T3 2, Event.readReg BMX280_REG_DIG_P1 2,
     Event.readReg BMX280_REG_DIG_P2 2, Event.readReg BMX280_REG_DIG_P3 2,
     Event.readReg BMX280_REG_DIG_P4 2, Event.readReg BMX280_REG_DIG_P5 2,
     Event.readReg BMX280_REG_DIG_P6 2, Event.readReg BMX280_REG_DIG_P7 2,
     Event.readReg BMX280_REG_DIG_P8 2, Event.readReg BMX280_REG_DIG_P9 2]
  if st.chipID = CHIP_ID_BME280 then
    ({ st1 with
       dig_H1 := ((read8val bus BME280_REG_DIG_H1 : Nat) : Int)
       dig_H2 := readS16LEval bus BME280_REG_DIG_H2
       dig_H3 := ((read8val bus BME280_REG_DIG_H3 : Nat) : Int)
       dig_H4 := digH4val (read8val bus BME280_REG_DIG_H4)
                   (read8val bus (BME280_REG_DIG_H4 + 1))
       dig_H5 := digH5val (read8val bus (BME280_REG_DIG_H5 + 1))
                   (read8val bus BME280_REG_DIG_H5)
       dig_H6 := toS8 (read8val bus BME280_REG_DIG_H6) },
     evs ++
     [Event.readReg BME280_REG_DIG_H1 1, Event.readReg BME280_REG_DIG_H2 2,
      Event.readReg BME280_REG_DIG_H3 1, Event.readReg BME280_REG_DIG_H4 1,
      Event.readReg (BME280_REG_DIG_H4 + 1) 1,
      Event.readReg (BME280_REG_DIG_H5 + 1) 1,
      Event.readReg BME280_REG_DIG_H5 1, Event.readReg BME280_REG_DIG_H6 1])
  else (st1, evs)

/-! ### ErriezBMX280::setSampling (ErriezBMX280.cpp lines 269-287) -/

/-- `setSampling`: the sequence of register writes issued (the session state
is not modified). -/
def setSampling (st : DriverState) (mode : BMX280_Mode_e)
    (tempSampling pressSampling humSampling : BMX280_Sampling_e)
    (filter : BMX280_Filter_e) (standbyDuration : BMX280_Standby_e) :
    List Event :=
  [write8ev BMX280_REG_CTRL_MEAS (modeCode BMX280_Mode_e.sleep)] ++
  (if st.chipID = CHIP_ID_BME280 then
     [write8ev BME280_REG_CTRL_HUM (samplingCode humSampling)]
   else []) ++
  [write8ev BMX280_REG_CONFIG
     ((standbyCode standbyDuration <<< 5) ||| (filterCode filter <<< 2)),
   write8ev BMX280_REG_CTRL_MEAS
     ((samplingCode tempSampling <<< 5) ||| (samplingCode pressSampling <<< 2) |||
       modeCode mode)]

/-! ### ErriezBMX280::begin (ErriezBMX280.cpp lines 55-86) -/

/-- The `while (read8(BMX280_REG_STATUS) & (1 << STATUS_IM_UPDATE))` poll
loop, with explicit fuel standing for elapsed iterations: `none` means the
loop is still running after `fuel` reads (the code itself has no bound).
Returns the list of status-read transactions when the loop exits. -/
def pollStatus (bus : Bus) : Nat → Nat → Option (List Event)
  | 0, _ => none
  | fuel + 1, i =>
    if statusRead bus i &&& (1 <<< STATUS_IM_UPDATE) ≠ 0 then
      match pollStatus bus fuel (i + 1) with
      | Option.none => none
      | Option.some evs => some (Event.readReg BMX280_REG_STATUS 1 :: evs)
    else some [Event.readReg BMX280_REG_STATUS 1]

/-- `begin`: probe the chip identity; on an unrecognized value return `false`
at once; otherwise soft-reset, poll the status register until the NVM copy
bit clears (`none` when the poll is still running after `fuel` reads), read
the coefficients and apply the default sampling configuration. -/
def begin (fuel : Nat) (bus : Bus) (st : DriverState) :
    Option (Bool × DriverState × List Event) :=
  let id := read8val bus BME280_REG_CHIPID
  let st1 : DriverState := { st with chipID := id }
  if id ≠ CHIP_ID_BMP280 ∧ id ≠ CHIP_ID_BME280 then
    some (false, st1, [Event.readReg BME280_REG_CHIPID 1])
  else
    match pollStatus bus fuel 0 with
    | Option.none => none
    | Option.some pollEvs =>
      let rc := readCoefficients bus st1
      let sampEvs := setSampling rc.1 BMX280_Mode_e.normal BMX280_Sampling_e.x16
        BMX280_Sampling_e.x16 BMX280_Sampling_e.x16 BMX280_Filter_e.off
        BMX280_Standby_e.ms0_5
      some (true, rc.1,
        [Event.readReg BME280_REG_CHIPID 1, write8ev BME280_REG_RESET RESET_KEY] ++
          pollEvs ++ rc.2 ++ sampEvs)

/-! ### Claim-side formulas (stated from the specification text) -/

/-- The fine-temperature value as the specification words it: the raw 24-bit
register value with its low 4 bits discarded, then
`var1 = (((adc_T >> 3) - (dig_T1 << 1)) * dig_T2) >> 11` and
`var2 = (((((adc_T >> 4) - dig_T1) * ((adc_T >> 4) - dig_T1)) >> 12) * dig_T3) >> 14`
in 32-bit signed arithmetic, with `fineTemperature = var1 + var2`. -/
def c1_fineTemperature (raw : Nat) (dig_T1 dig_T2 dig_T3 : Int) : Int :=
  let adc_T : Int := ((raw >>> 4 : Nat) : Int)
  let var1 : Int :=
    sar (wrap32 (wrap32 (sar adc_T 3 - wrap32 (dig_T1 * 2)) * dig_T2)) 11
  let var2 : Int :=
    sar (wrap32 (sar (wrap32 (wrap32 (sar adc_T 4 - dig_T1) *
      wrap32 (sar adc_T 4 - dig_T1))) 12 * dig_T3)) 14
  wrap32 (var1 + var2)

/-- The Celsius result as the specification words it:
`(((fineTemperature * 5) + 128) >> 8) / 100.0` in 32-bit signed
arithmetic. -/
def c1_celsius (fineTemperature : Int) : ℚ :=
  ((sar (wrap32 (wrap32 (fineTemperature * 5) + 128)) 8 : Int) : ℚ) / 100

/-- The pressure guard divisor as the specification words it:
`var1 = ((1 << 47) + (((v * v * dig_P3) >> 8) + ((v * dig_P2) << 12))) * dig_P1 >> 33`
with `v = fineTemperature - 128000`, in 64-bit signed arithmetic. -/
def c2_var1 (fineTemperature dig_P1 dig_P2 dig_P3 : Int) : Int :=
  let v : Int := wrap64 (fineTemperature - 128000)
  sar (wrap64 (wrap64 (2 ^ 47 +
    wrap64 (sar (wrap64 (wrap64 (v * v) * dig_P3)) 8 +
      wrap64 (wrap64 (v * dig_P2) * 2 ^ 12))) * dig_P1)) 33

/-- The division path of the pressure formula: what `readPressure` computes
after the zero guard, including the division by the guarded `var1`. -/
def c2_divPath (t_fine adc_P P1 P2 P3 P4 P5 P6 P7 P8 P9 : Int) : ℚ :=
  let v1a : Int := wrap64 (t_fine - 128000)
  let v2a : Int := wrap64 (wrap64 (v1a * v1a) * P6)
  let v2b : Int := wrap64 (v2a + wrap64 (wrap64 (v1a * P5) * 2 ^ 17))
  let v2c : Int := wrap64 (v2b + wrap64 (P4 * 2 ^ 35))
  let v1c : Int := c2_var1 t_fine P1 P2 P3
  let p0 : Int := wrap64 (1048576 - adc_P)
  let p1 : Int :=
    wrap64 (Int.tdiv (wrap64 (wrap64 (wrap64 (p0 * 2 ^ 31) - v2c) * 3125)) v1c)
  let v1d : Int := sar (wrap64 (wrap64 (P9 * sar p1 13) * sar p1 13)) 25
  let v2d : Int := sar (wrap64 (P8 * p1)) 19
  let pfin : Int :=
    wrap64 (sar (wrap64 (wrap64 (p1 + v1d) + v2d)) 8 + wrap64 (P7 * 2 ^ 4))
  (pfin : ℚ) / 256

/-- The humidity intermediate right before the clamp (the value the clamp in
`readHumidity` is applied to). -/
def c3_preClamp (t_fine adc_H H1 H2 H3 H4 H5 H6 : Int) : Int :=
  let v0 : Int := wrap32 (t_fine - 76800)
  let t1 : Int :=
    sar (wrap32 (wrap32 (wrap32 (wrap32 (adc_H * 2 ^ 14) - wrap32 (H4 * 2 ^ 20)) -
      wrap32 (H5 * v0)) + 16384)) 15
  let t2 : Int :=
    sar (wrap32 (wrap32 (wrap32 (sar (wrap32 (sar (wrap32 (v0 * H6)) 10 *
      wrap32 (sar (wrap32 (v0 * H3)) 11 + 32768))) 10 + 2097152) * H2) + 8192)) 14
  let va : Int := wrap32 (t1 * t2)
  wrap32 (va - sar (wrap32 (sar (wrap32 (sar va 15 * sar va 15)) 7 * H1)) 4)

/-- The final humidity scaling of a clamped intermediate:
`(clampedIntermediate >> 12) / 1024.0`. -/
def c3_scaled (clampedIntermediate : Int) : ℚ :=
  ((sar clampedIntermediate 12 : Int) : ℚ) / 1024

/-! ### Concrete fixtures used by witnesses -/

/-- A healthy device whose registers all read 0 (identity byte 0x00). -/
def zeroBus : Bus := ⟨fun _ => 0, fun _ => 0, fun _ => false⟩

/-- A healthy BMP280 device (identity 0x58), all other registers 0, status
always clear. -/
def bmpBus : Bus :=
  ⟨fun r => if r = BME280_REG_CHIPID then CHIP_ID_BMP280 else 0,
   fun _ => 0, fun _ => false⟩

/-- A BME280 device (identity 0x60) whose transport fails exactly on the
transaction addressing the first temperature-coefficient register. -/
def failT1Bus : Bus :=
  ⟨fun r => if r = BME280_REG_CHIPID then CHIP_ID_BME280 else 0,
   fun _ => 0, fun r => decide (r = BMX280_REG_DIG_T1)⟩

/-- A session state whose recorded identity is the BME280. -/
def bmeState : DriverState := { initState with chipID := CHIP_ID_BME280 }

/-! ### Arithmetic bridge lemmas -/

/-- Or-ing a left-shifted value with a value confined to the shifted-out
bits is addition. -/
theorem shl_or_eq (a b n : Nat) (h : b < 2 ^ n) :
    (a <<< n) ||| b = a * 2 ^ n + b := by
  have hb : ∀ i, n ≤ i → b.testBit i = false := by
    intro i hi
    exact Nat.testBit_lt_two_pow
      (lt_of_lt_of_le h (Nat.pow_le_pow_right (by norm_num) hi))
  apply Nat.eq_of_testBit_eq
  intro i
  rw [Nat.testBit_or, Nat.testBit_shiftLeft]
  have hmul := Nat.testBit_mul_pow_two_add a h i
  rw [Nat.mul_comm (2 ^ n) a] at hmul
  rw [hmul]
  by_cases hi : i < n
  · simp [Nat.not_le.mpr hi, hi]
  · simp [Nat.not_lt.mp hi, hi, hb i (Nat.not_lt.mp hi)]

/-- Or-ing a multiple of 16 with a nibble is addition. -/
theorem or_nibble_eq (a n : Nat) (ha : 16 ∣ a) (hn : n < 16) :
    a ||| n = a + n := by
  obtain ⟨c, hc⟩ := ha
  have : a = c <<< 4 := by
    rw [Nat.shiftLeft_eq, hc]
    ring
  rw [this, shl_or_eq c n 4 (by norm_num [hn])]
  omega

/-- `wrap16` is the identity on the signed 16-bit range. -/
theorem wrap16_eq_self {x : Int} (h1 : -(2 ^ 15) ≤ x) (h2 : x < 2 ^ 15) :
    wrap16 x = x := by
  unfold wrap16
  rw [Int.emod_eq_of_lt (by omega) (by omega)]
  omega

/-- `wrap32` is the identity on the signed 32-bit range. -/
theorem wrap32_eq_self {x : Int} (h1 : -(2 ^ 31) ≤ x) (h2 : x < 2 ^ 31) :
    wrap32 x = x := by
  unfold wrap32
  rw [Int.emod_eq_of_lt (by omega) (by omega)]
  omega

/-- `wrap32` only depends on the residue modulo `2 ^ 32`. -/
theorem wrap32_congr {x y : Int} (h : x % (2 ^ 32) = y % (2 ^ 32)) :
    wrap32 x = wrap32 y := by
  unfold wrap32
  rw [Int.add_emod, h, ← Int.add_emod]

/-- Arithmetic shift right of a natural value is natural shift right. -/
theorem sar_cast (a n : Nat) :
    sar ((a : Nat) : Int) n = ((a >>> n : Nat) : Int) := by
  rw [sar, Int.fdiv_eq_tdiv (by positivity) (by positivity),
    Nat.shiftRight_eq_div_pow]
  have h : ((2 : Int) ^ n) = ((2 ^ n : Nat) : Int) := by push_cast; ring
  rw [h, ← Int.ofNat_tdiv]

/-- Masking with `0xF` keeps the low nibble. -/
theorem and_fifteen (b : Nat) : b &&& 0xF = b % 16 := by
  have h := Nat.and_pow_two_sub_one_eq_mod b 4
  norm_num at h
  exact h

/-- The signed reinterpretation of a byte lies in `[-128, 127]`. -/
theorem toS8_range (b : Nat) : -128 ≤ toS8 b ∧ toS8 b < 128 := by
  unfold toS8
  have : b % 256 < 256 := Nat.mod_lt _ (by norm_num)
  split <;> omega

/-- A successful `read16` delivers the two register bytes big-endian. -/
theorem read16val_eq (bus : Bus) (reg : Nat) (h : bus.fail reg = false) :
    read16val bus reg = (bus.regs reg % 256) * 256 + bus.regs (reg + 1) % 256 := by
  unfold read16val
  rw [h]
  simp only [Bool.false_eq_true, if_false]
  exact shl_or_eq _ _ 8 (Nat.mod_lt _ (by norm_num))

/-- A successful `read16_LE` assembles the two register bytes little-endian:
the byte at `reg + 1` becomes the high byte. -/
theorem read16LEval_eq (bus : Bus) (reg : Nat) (h : bus.fail reg = false) :
    read16LEval bus reg =
      (bus.regs (reg + 1) % 256) * 256 + bus.regs reg % 256 := by
  unfold read16LEval
  rw [read16val_eq bus reg h]
  have hb0 : bus.regs reg % 256 < 256 := Nat.mod_lt _ (by norm_num)
  have hb1 : bus.regs (reg + 1) % 256 < 256 := Nat.mod_lt _ (by norm_num)
  set b0 := bus.regs reg % 256 with hb0def
  set b1 := bus.regs (reg + 1) % 256 with hb1def
  have hv : b0 * 256 + b1 < 65536 := by omega
  have hshr : (b0 * 256 + b1) >>> 8 = b0 := by
    rw [Nat.shiftRight_eq_div_pow]
    norm_num
    omega
  have hshl : (b0 * 256 + b1) <<< 8 = (b0 * 256 + b1) * 256 := by
    rw [Nat.shiftLeft_eq]
  rw [hshr, hshl, Nat.lor_comm, ← Nat.shiftLeft_eq (b0 * 256 + b1) 8]
  have : ((b0 * 256 + b1) <<< 8) ||| b0 = (b0 * 256 + b1) * 2 ^ 8 + b0 :=
    shl_or_eq _ _ 8 (by omega)
  rw [this]
  norm_num
  omega

/-- Combining a shifted small signed value with a nibble through 32-bit `|`
and an `int16_t` store is plain arithmetic. -/
theorem or32_nibble (s : Int) (n : Nat) (hs1 : -128 ≤ s) (hs2 : s < 128)
    (hn : n < 16) :
    wrap16 (or32 (wrap32 (s * 2 ^ 4)) ((n : Nat) : Int)) = s * 16 + (n : Int) := by
  have hx : wrap32 (s * 2 ^ 4) = s * 16 := by
    unfold wrap32
    rw [Int.emod_eq_of_lt (by omega) (by omega)]
    omega
  have hdvd : 16 ∣ u32 (s * 16) := by
    unfold u32
    omega
  have hu2 : u32 ((n : Nat) : Int) = n := by
    unfold u32
    omega
  unfold or32
  rw [hx, hu2, or_nibble_eq _ _ hdvd hn]
  clear hx hu2 hdvd
  unfold u32 wrap32 wrap16
  omega

/-- The `_dig_H4` assembly equals the arithmetic form: signed high byte times
16 plus the low nibble of the following byte. -/
theorem digH4val_eq (b0 b1 : Nat) :
    digH4val b0 b1 = toS8 b0 * 16 + ((b1 % 16 : Nat) : Int) := by
  unfold digH4val
  rw [and_fifteen b1]
  exact or32_nibble (toS8 b0) (b1 % 16) (toS8_range b0).1 (toS8_range b0).2
    (Nat.mod_lt _ (by norm_num))

/-- The `_dig_H5` assembly equals the arithmetic form: signed byte after the
H5 register times 16 plus the high nibble of the H5 register byte. -/
theorem digH5val_eq (b1 b0 : Nat) (hb0 : b0 < 256) :
    digH5val b1 b0 = toS8 b1 * 16 + ((b0 / 16 : Nat) : Int) := by
  unfold digH5val
  rw [Nat.shiftRight_eq_div_pow]
  norm_num
  exact or32_nibble (toS8 b1) (b0 / 16) (toS8_range b1).1 (toS8_range b1).2
    (by omega)

/-- `read24` delivers the three register bytes big-endian. -/
theorem read24val_eq (bus : Bus) (reg : Nat) :
    read24val bus reg =
      (bus.regs reg % 256) * 65536 + (bus.regs (reg + 1) % 256) * 256 +
        bus.regs (reg + 2) % 256 := by
  unfold read24val
  have h1 : (bus.regs reg % 256) <<< 8 ||| (bus.regs (reg + 1) % 256) =
      (bus.regs reg % 256) * 256 + bus.regs (reg + 1) % 256 :=
    shl_or_eq _ _ 8 (Nat.mod_lt _ (by norm_num))
  rw [h1]
  have h2 := shl_or_eq ((bus.regs reg % 256) * 256 + bus.regs (reg + 1) % 256)
    (bus.regs (reg + 2) % 256) 8 (Nat.mod_lt _ (by norm_num))
  rw [h2]
  ring

/-! ### Claims -/

/-- **C1.** For every 24-bit raw temperature register value and every
calibration coefficient triple (`dig_T1` unsigned 16-bit, `dig_T2`/`dig_T3`
signed 16-bit), `readTemperature` discards the low 4 bits of the raw value,
computes in 32-bit signed arithmetic
`var1 = (((adc_T >> 3) - (dig_T1 << 1)) * dig_T2) >> 11` and
`var2 = (((((adc_T >> 4) - dig_T1) * ((adc_T >> 4) - dig_T1)) >> 12) * dig_T3) >> 14`,
stores `fineTemperature = var1 + var2`, and returns
`(((fineTemperature * 5) + 128) >> 8) / 100.0` as degrees Celsius. -/
theorem C1_readTemperature_formula (bus : Bus) (st : DriverState)
    (h1 : 0 ≤ st.dig_T1 ∧ st.dig_T1 < 65536)
    (h2 : -32768 ≤ st.dig_T2 ∧ st.dig_T2 < 32768)
    (h3 : -32768 ≤ st.dig_T3 ∧ st.dig_T3 < 32768) :
    readTemperature bus st =
      (c1_celsius (c1_fineTemperature (read24val bus BMX280_REG_TEMP)
         st.dig_T1 st.dig_T2 st.dig_T3),
       { st with t_fine := (c1_fineTemperature (read24val bus BMX280_REG_TEMP)
           st.dig_T1 st.dig_T2 st.dig_T3) },
       [Event.readReg BMX280_REG_TEMP 3]) := by
  simp only [readTemperature, c1_fineTemperature, c1_celsius, sar_cast]
  norm_num

/-- Witness for C1 at the all-zero device and fresh session. -/
theorem C1_readTemperature_formula_witness :
    ((0 ≤ initState.dig_T1 ∧ initState.dig_T1 < 65536) ∧
     (-32768 ≤ initState.dig_T2 ∧ initState.dig_T2 < 32768)) ∧
    readTemperature zeroBus initState = (0, initState, [Event.readReg BMX280_REG_TEMP 3]) := by
  have h := C1_readTemperature_formula zeroBus initState ⟨by decide, by decide⟩
    ⟨by decide, by decide⟩ ⟨by decide, by decide⟩
  refine ⟨⟨⟨by decide, by decide⟩, ⟨by decide, by decide⟩⟩, ?_⟩
  rw [h]
  have hf : c1_fineTemperature (read24val zeroBus BMX280_REG_TEMP)
      initState.dig_T1 initState.dig_T2 initState.dig_T3 = 0 := by decide
  rw [hf]
  have hs : sar (wrap32 (wrap32 ((0 : Int) * 5) + 128)) 8 = 0 := by decide
  have hc : c1_celsius 0 = 0 := by
    unfold c1_celsius
    rw [hs]
    norm_num
  rw [hc]
  rfl

/-- **C7.** If the identity register read during initialization returns a
byte that is neither 0x58 (BMP280) nor 0x60 (BME280), `begin` returns
`false` immediately: its whole transaction trace is the single identity
read — no reset write, no status poll, no coefficient read, no
configuration write. -/
theorem C7_begin_unrecognized (fuel : Nat) (bus : Bus) (st : DriverState)
    (h1 : read8val bus BME280_REG_CHIPID ≠ CHIP_ID_BMP280)
    (h2 : read8val bus BME280_REG_CHIPID ≠ CHIP_ID_BME280) :
    begin fuel bus st =
      some (false, { st with chipID := read8val bus BME280_REG_CHIPID },
        [Event.readReg BME280_REG_CHIPID 1]) := by
  unfold begin
  rw [if_pos ⟨h1, h2⟩]

/-- Witness for C7: the all-zero device reports identity 0x00. -/
theorem C7_begin_unrecognized_witness :
    (read8val zeroBus BME280_REG_CHIPID ≠ CHIP_ID_BMP280 ∧
     read8val zeroBus BME280_REG_CHIPID ≠ CHIP_ID_BME280) ∧
    begin 0 zeroBus initState =
      some (false, { initState with chipID := 0 },
        [Event.readReg BME280_REG_CHIPID 1]) := by
  refine ⟨⟨by decide, by decide⟩, ?_⟩
  rw [C7_begin_unrecognized 0 zeroBus initState (by decide) (by decide)]
  rfl

/-- **C10.** If the chip identity recorded at initialization is not the
BME280, `readHumidity` returns 0 with an empty transaction trace and the
session state unchanged (in particular `_t_fine` is untouched). -/
theorem C10_readHumidity_wrongChip (bus : Bus) (st : DriverState)
    (h : st.chipID ≠ CHIP_ID_BME280) :
    readHumidity bus st = (0, st, []) := by
  unfold readHumidity
  rw [if_pos h]

/-- Witness for C10: a fresh session (identity 0) on the all-zero device. -/
theorem C10_readHumidity_wrongChip_witness :
    initState.chipID ≠ CHIP_ID_BME280 ∧
    readHumidity zeroBus initState = (0, initState, []) :=
  ⟨by decide, C10_readHumidity_wrongChip zeroBus initState (by decide)⟩

/-- **C4.** Every `readPressure` call, and every `readHumidity` call on the
BME280 variant, first performs the complete temperature computation —
its transaction trace is exactly `readTemperature`'s trace followed by the
pressure/humidity data read, and its final state is exactly
`readTemperature`'s final state (so `_t_fine` is freshly overwritten before
any pressure/humidity register is read) — and the whole outcome is
independent of the stale `_t_fine` the session started with. -/
theorem C4_fineTemperature_refresh (bus : Bus) (st : DriverState) :
    ((readPressure bus st).2.2 =
        (readTemperature bus st).2.2 ++ [Event.readReg BMX280_REG_PRESS 3] ∧
      (readPressure bus st).2.1 = (readTemperature bus st).2.1 ∧
      ∀ a b : Int,
        readPressure bus { st with t_fine := a } =
          readPressure bus { st with t_fine := b }) ∧
    (st.chipID = CHIP_ID_BME280 →
      (readHumidity bus st).2.2 =
          (readTemperature bus st).2.2 ++ [Event.readReg BME280_REG_HUM 2] ∧
        (readHumidity bus st).2.1 = (readTemperature bus st).2.1 ∧
        ∀ a b : Int,
          readHumidity bus { st with t_fine := a } =
            readHumidity bus { st with t_fine := b }) := by
  refine ⟨⟨rfl, rfl, fun a b => rfl⟩, fun hbme => ⟨?_, ?_, fun a b => ?_⟩⟩ <;>
    simp [readHumidity, readTemperature, hbme]

/-- Witness for C4: a BME280 session on the all-zero device. -/
theorem C4_fineTemperature_refresh_witness :
    bmeState.chipID = CHIP_ID_BME280 ∧
    (readHumidity zeroBus bmeState).2.2 =
      (readTemperature zeroBus bmeState).2.2 ++ [Event.readReg BME280_REG_HUM 2] :=
  ⟨rfl, ((C4_fineTemperature_refresh zeroBus bmeState).2 rfl).1⟩

/-- The humidity-oversampling byte already fits in a byte. -/
theorem humByte_mod (h : BMX280_Sampling_e) :
    samplingCode h % 256 = samplingCode h := by
  cases h <;> rfl

/-- The packed config byte already fits in a byte. -/
theorem configByte_mod (sb : BMX280_Standby_e) (f : BMX280_Filter_e) :
    ((standbyCode sb <<< 5) ||| (filterCode f <<< 2)) % 256 =
      (standbyCode sb <<< 5) ||| (filterCode f <<< 2) := by
  cases sb <;> cases f <;> rfl

/-- The packed ctrl_meas byte already fits in a byte. -/
theorem measByte_mod (t p : BMX280_Sampling_e) (m : BMX280_Mode_e) :
    ((samplingCode t <<< 5) ||| (samplingCode p <<< 2) ||| modeCode m) % 256 =
      (samplingCode t <<< 5) ||| (samplingCode p <<< 2) ||| modeCode m := by
  cases t <;> cases p <;> cases m <;> rfl

/-- **C6.** For every mode, oversampling, filter and standby argument,
`setSampling` issues exactly this write sequence: ctrl_meas with the sleep
code, then (only on the BME280) ctrl_hum with the humidity-sampling code,
then config with `(standbyCode << 5) | (filterCode << 2)`, then ctrl_meas
with `(tempCode << 5) | (pressCode << 2) | modeCode`; and standby code
0b100 with filter code 0b100 packs to 0x90. -/
theorem C6_setSampling_order (st : DriverState) (mode : BMX280_Mode_e)
    (t p h : BMX280_Sampling_e) (f : BMX280_Filter_e) (sb : BMX280_Standby_e) :
    setSampling st mode t p h f sb =
      [Event.writeReg BMX280_REG_CTRL_MEAS (modeCode BMX280_Mode_e.sleep)] ++
      (if st.chipID = CHIP_ID_BME280 then
         [Event.writeReg BME280_REG_CTRL_HUM (samplingCode h)]
       else []) ++
      [Event.writeReg BMX280_REG_CONFIG
         ((standbyCode sb <<< 5) ||| (filterCode f <<< 2)),
       Event.writeReg BMX280_REG_CTRL_MEAS
         ((samplingCode t <<< 5) ||| (samplingCode p <<< 2) ||| modeCode mode)] ∧
    ((standbyCode BMX280_Standby_e.ms500 <<< 5) |||
        (filterCode BMX280_Filter_e.x16 <<< 2)) = 0x90 := by
  constructor
  · unfold setSampling write8ev
    rw [humByte_mod h, configByte_mod sb f, measByte_mod t p mode]
    rfl
  · decide

/-- **C2.** In `readPressure`, when the 64-bit intermediate
`var1 = ((1 << 47) + (((v * v * dig_P3) >> 8) + ((v * dig_P2) << 12))) * dig_P1 >> 33`
(with `v = fineTemperature - 128000`) is exactly zero the compensation
returns 0 without dividing, and for every other value it takes the division
path (whose divisor is that same non-zero `var1`), so the division by zero
is unreachable. -/
theorem C2_pressure_zero_guard (t_fine adc_P P1 P2 P3 P4 P5 P6 P7 P8 P9 : Int) :
    (c2_var1 t_fine P1 P2 P3 = 0 →
      pressureComp t_fine adc_P P1 P2 P3 P4 P5 P6 P7 P8 P9 = 0) ∧
    (c2_var1 t_fine P1 P2 P3 ≠ 0 →
      pressureComp t_fine adc_P P1 P2 P3 P4 P5 P6 P7 P8 P9 =
        c2_divPath t_fine adc_P P1 P2 P3 P4 P5 P6 P7 P8 P9) := by
  constructor
  · intro h
    simp only [c2_var1] at h
    simp only [pressureComp]
    rw [if_pos h]
  · intro h
    simp only [c2_var1] at h
    simp only [pressureComp]
    rw [if_neg h]
    simp only [c2_divPath, c2_var1]

/-- Witness for C2: the all-zero coefficient set drives `var1` to exactly 0
and the compensation returns 0. -/
theorem C2_pressure_zero_guard_witness :
    c2_var1 0 0 0 0 = 0 ∧ pressureComp 0 0 0 0 0 0 0 0 0 0 0 = 0 :=
  ⟨by decide, (C2_pressure_zero_guard 0 0 0 0 0 0 0 0 0 0 0).1 (by decide)⟩

/-- **C3.** On the BME280 variant, `readHumidity`'s result is the pure
compensation of the freshly refreshed `_t_fine` and the raw humidity word;
that compensation clamps its pre-scaling 32-bit intermediate to
`[0, 419430400]` — an intermediate below 0 yields exactly the result of
intermediate 0 and one above 419430400 exactly the result of intermediate
419430400 — and returns `(clampedIntermediate >> 12) / 1024.0`. -/
theorem C3_humidity_clamp :
    (∀ (bus : Bus) (st : DriverState), st.chipID = CHIP_ID_BME280 →
      (readHumidity bus st).1 =
        humidityComp (readTemperature bus st).2.1.t_fine
          ((read16val bus BME280_REG_HUM : Nat) : Int) st.dig_H1 st.dig_H2
          st.dig_H3 st.dig_H4 st.dig_H5 st.dig_H6) ∧
    (∀ t_fine adc_H H1 H2 H3 H4 H5 H6 : Int,
      humidityComp t_fine adc_H H1 H2 H3 H4 H5 H6 =
        c3_scaled (min 419430400
          (max 0 (c3_preClamp t_fine adc_H H1 H2 H3 H4 H5 H6))) ∧
      (c3_preClamp t_fine adc_H H1 H2 H3 H4 H5 H6 < 0 →
        humidityComp t_fine adc_H H1 H2 H3 H4 H5 H6 = c3_scaled 0) ∧
      (c3_preClamp t_fine adc_H H1 H2 H3 H4 H5 H6 > 419430400 →
        humidityComp t_fine adc_H H1 H2 H3 H4 H5 H6 = c3_scaled 419430400)) := by
  have hminmax : ∀ v : Int,
      (if (if v < 0 then 0 else v) > 419430400 then 419430400
       else (if v < 0 then 0 else v)) = min 419430400 (max 0 v) := by
    intro v
    split_ifs <;> omega
  have hEq : ∀ t_fine adc_H H1 H2 H3 H4 H5 H6 : Int,
      humidityComp t_fine adc_H H1 H2 H3 H4 H5 H6 =
        c3_scaled (min 419430400
          (max 0 (c3_preClamp t_fine adc_H H1 H2 H3 H4 H5 H6))) := by
    intro t_fine adc_H H1 H2 H3 H4 H5 H6
    simp only [humidityComp, c3_scaled, c3_preClamp, hminmax]
  refine ⟨?_, fun t_fine adc_H H1 H2 H3 H4 H5 H6 => ⟨hEq _ _ _ _ _ _ _ _, ?_, ?_⟩⟩
  · intro bus st h
    simp [readHumidity, readTemperature, h]
  · intro hlt
    rw [hEq]
    congr 1
    omega
  · intro hgt
    rw [hEq]
    congr 1
    omega

/-- Witness for C3: concrete coefficient sets driving the pre-clamp
intermediate below 0 (result 0 %RH) and above 419430400 (result 100 %RH). -/
theorem C3_humidity_clamp_witness :
    (c3_preClamp 76800 0 0 1 0 1 0 0 < 0 ∧
      humidityComp 76800 0 0 1 0 1 0 0 = c3_scaled 0 ∧ c3_scaled 0 = 0) ∧
    (c3_preClamp 76800 0 0 101 0 (-1024) 0 0 > 419430400 ∧
      humidityComp 76800 0 0 101 0 (-1024) 0 0 = c3_scaled 419430400 ∧
      c3_scaled 419430400 = 100) := by
  have h0 : sar (0 : Int) 12 = 0 := by decide
  have hM : sar (419430400 : Int) 12 = 102400 := by decide
  have hz : c3_scaled 0 = 0 := by
    unfold c3_scaled
    rw [h0]
    norm_num
  have hm : c3_scaled 419430400 = 100 := by
    unfold c3_scaled
    rw [hM]
    norm_num
  constructor
  · exact ⟨by decide,
      (C3_humidity_clamp.2 76800 0 0 1 0 1 0 0).2.1 (by decide), hz⟩
  · exact ⟨by decide,
      (C3_humidity_clamp.2 76800 0 0 101 0 (-1024) 0 0).2.2 (by decide), hm⟩

/-- **C5.** Calibration decoding byte-swaps every 16-bit coefficient (the
device stores them little-endian, the bus read assembles big-endian),
treats `dig_T1` and `dig_P1` as unsigned 16-bit and the remaining 16-bit
coefficients as signed; the humidity block is decoded only when the chip is
the BME280, with `dig_H4` = signed byte at 0xE4 shifted left 4 or-ed with
the low nibble of the byte at 0xE5, and `dig_H5` = signed byte at 0xE6
shifted left 4 or-ed with the high nibble of the byte at 0xE5. -/
theorem C5_readCoefficients_decode (bus : Bus) (st : DriverState)
    (hok : ∀ r, bus.fail r = false) :
    ((readCoefficients bus st).1.dig_T1 =
        (((bus.regs 0x89 % 256) * 256 + bus.regs 0x88 % 256 : Nat) : Int) ∧
     (readCoefficients bus st).1.dig_T2 =
        toS16 ((bus.regs 0x8B % 256) * 256 + bus.regs 0x8A % 256) ∧
     (readCoefficients bus st).1.dig_T3 =
        toS16 ((bus.regs 0x8D % 256) * 256 + bus.regs 0x8C % 256) ∧
     (readCoefficients bus st).1.dig_P1 =
        (((bus.regs 0x8F % 256) * 256 + bus.regs 0x8E % 256 : Nat) : Int) ∧
     (readCoefficients bus st).1.dig_P2 =
        toS16 ((bus.regs 0x91 % 256) * 256 + bus.regs 0x90 % 256) ∧
     (readCoefficients bus st).1.dig_P3 =
        toS16 ((bus.regs 0x93 % 256) * 256 + bus.regs 0x92 % 256) ∧
     (readCoefficients bus st).1.dig_P4 =
        toS16 ((bus.regs 0x95 % 256) * 256 + bus.regs 0x94 % 256) ∧
     (readCoefficients bus st).1.dig_P5 =
        toS16 ((bus.regs 0x97 % 256) * 256 + bus.regs 0x96 % 256) ∧
     (readCoefficients bus st).1.dig_P6 =
        toS16 ((bus.regs 0x99 % 256) * 256 + bus.regs 0x98 % 256) ∧
     (readCoefficients bus st).1.dig_P7 =
        toS16 ((bus.regs 0x9B % 256) * 256 + bus.regs 0x9A % 256) ∧
     (readCoefficients bus st).1.dig_P8 =
        toS16 ((bus.regs 0x9D % 256) * 256 + bus.regs 0x9C % 256) ∧
     (readCoefficients bus st).1.dig_P9 =
        toS16 ((bus.regs 0x9F % 256) * 256 + bus.regs 0x9E % 256)) ∧
    (st.chipID = CHIP_ID_BME280 →
      (readCoefficients bus st).1.dig_H1 = ((bus.regs 0xA1 % 256 : Nat) : Int) ∧
      (readCoefficients bus st).1.dig_H2 =
        toS16 ((bus.regs 0xE2 % 256) * 256 + bus.regs 0xE1 % 256) ∧
      (readCoefficients bus st).1.dig_H3 = ((bus.regs 0xE3 % 256 : Nat) : Int) ∧
      (readCoefficients bus st).1.dig_H4 =
        toS8 (bus.regs 0xE4 % 256) * 16 + (((bus.regs 0xE5 % 256) % 16 : Nat) : Int) ∧
      (readCoefficients bus st).1.dig_H5 =
        toS8 (bus.regs 0xE6 % 256) * 16 + (((bus.regs 0xE5 % 256) / 16 : Nat) : Int) ∧
      (readCoefficients bus st).1.dig_H6 = toS8 (bus.regs 0xE7 % 256)) ∧
    (st.chipID ≠ CHIP_ID_BME280 →
      (readCoefficients bus st).1.dig_H1 = st.dig_H1 ∧
      (readCoefficients bus st).1.dig_H2 = st.dig_H2 ∧
      (readCoefficients bus st).1.dig_H3 = st.dig_H3 ∧
      (readCoefficients bus st).1.dig_H4 = st.dig_H4 ∧
      (readCoefficients bus st).1.dig_H5 = st.dig_H5 ∧
      (readCoefficients bus st).1.dig_H6 = st.dig_H6) := by
  have h8 : ∀ r, read8val bus r = bus.regs r % 256 := by
    intro r
    unfold read8val
    rw [hok r]
    simp
  have hS : ∀ r, readS16LEval bus r =
      toS16 ((bus.regs (r + 1) % 256) * 256 + bus.regs r % 256) := by
    intro r
    unfold readS16LEval
    rw [read16LEval_eq bus r (hok r)]
  have hH4 : digH4val (bus.regs 0xE4 % 256) (bus.regs 0xE5 % 256) =
      toS8 (bus.regs 0xE4 % 256) * 16 + (((bus.regs 0xE5 % 256) % 16 : Nat) : Int) :=
    digH4val_eq _ _
  have hH5 : digH5val (bus.regs 0xE6 % 256) (bus.regs 0xE5 % 256) =
      toS8 (bus.regs 0xE6 % 256) * 16 + (((bus.regs 0xE5 % 256) / 16 : Nat) : Int) :=
    digH5val_eq _ _ (Nat.mod_lt _ (by norm_num))
  by_cases hc : st.chipID = CHIP_ID_BME280 <;>
    simp [readCoefficients, hc, h8, hS, hH4, hH5, read16LEval_eq bus _ (hok _),
      BMX280_REG_DIG_T1, BMX280_REG_DIG_T2, BMX280_REG_DIG_T3,
      BMX280_REG_DIG_P1, BMX280_REG_DIG_P2, BMX280_REG_DIG_P3,
      BMX280_REG_DIG_P4, BMX280_REG_DIG_P5, BMX280_REG_DIG_P6,
      BMX280_REG_DIG_P7, BMX280_REG_DIG_P8, BMX280_REG_DIG_P9,
      BME280_REG_DIG_H1, BME280_REG_DIG_H2, BME280_REG_DIG_H3,
      BME280_REG_DIG_H4, BME280_REG_DIG_H5, BME280_REG_DIG_H6]

/-- Witness for C5: the all-zero healthy device decodes every coefficient
to 0 on a fresh (non-BME) session. -/
theorem C5_readCoefficients_decode_witness :
    (∀ r, zeroBus.fail r = false) ∧
    (readCoefficients zeroBus initState).1.dig_T1 = 0 ∧
    (readCoefficients zeroBus initState).1.dig_H4 = initState.dig_H4 := by
  have h := C5_readCoefficients_decode zeroBus initState (fun _ => rfl)
  exact ⟨fun _ => rfl, by simpa using h.1.1, (h.2.2 (by decide)).2.2.1⟩

/-- If the poll loop exits, some status read delivered im_update clear. -/
theorem pollStatus_some_clear (bus : Bus) :
    ∀ fuel i evs, pollStatus bus fuel i = some evs →
      ∃ j, statusRead bus j &&& (1 <<< STATUS_IM_UPDATE) = 0 := by
  intro fuel
  induction fuel with
  | zero =>
    intro i evs h
    simp [pollStatus] at h
  | succ n ih =>
    intro i evs h
    rw [pollStatus] at h
    by_cases hc : statusRead bus i &&& (1 <<< STATUS_IM_UPDATE) ≠ 0
    · rw [if_pos hc] at h
      cases hrec : pollStatus bus n (i + 1) with
      | none =>
        rw [hrec] at h
        simp at h
      | some evs2 => exact ih (i + 1) evs2 hrec
    · exact ⟨i, not_ne_iff.mp hc⟩

/-- If some status read within the fuel bound delivers im_update clear, the
poll loop exits. -/
theorem pollStatus_isSome (bus : Bus) :
    ∀ fuel i,
      (∃ j, j < fuel ∧ statusRead bus (i + j) &&& (1 <<< STATUS_IM_UPDATE) = 0) →
      (pollStatus bus fuel i).isSome := by
  intro fuel
  induction fuel with
  | zero =>
    rintro i ⟨j, hj, _⟩
    omega
  | succ n ih =>
    rintro i ⟨j, hj, hclear⟩
    by_cases hc : statusRead bus i &&& (1 <<< STATUS_IM_UPDATE) ≠ 0
    · have hj0 : j ≠ 0 := by
        intro h0
        subst h0
        rw [Nat.add_zero] at hclear
        exact hc hclear
      have hrec0 : (pollStatus bus n (i + 1)).isSome := by
        refine ih (i + 1) ⟨j - 1, by omega, ?_⟩
        have hidx : i + 1 + (j - 1) = i + j := by omega
        rw [hidx]
        exact hclear
      rw [pollStatus, if_pos hc]
      cases hrec : pollStatus bus n (i + 1) with
      | none =>
        rw [hrec] at hrec0
        simp at hrec0
      | some evs => simp
    · rw [pollStatus, if_neg hc]
      simp

/-- **C9.** The initialization status poll has no bound: on a recognized
device, `begin` completes (for some fuel) exactly when some status read
delivers a byte with bit 0 clear; when every status read has bit 0 set,
`begin` yields `none` (the loop is still running) no matter how much fuel
it is given. -/
theorem C9_begin_poll_unbounded (bus : Bus) (st : DriverState)
    (hid : read8val bus BME280_REG_CHIPID = CHIP_ID_BMP280 ∨
      read8val bus BME280_REG_CHIPID = CHIP_ID_BME280) :
    ((∃ fuel r, begin fuel bus st = some r) ↔
      ∃ i, statusRead bus i &&& (1 <<< STATUS_IM_UPDATE) = 0) ∧
    ((∀ i, statusRead bus i &&& (1 <<< STATUS_IM_UPDATE) ≠ 0) →
      ∀ fuel, begin fuel bus st = none) := by
  have hcond : ¬(read8val bus BME280_REG_CHIPID ≠ CHIP_ID_BMP280 ∧
      read8val bus BME280_REG_CHIPID ≠ CHIP_ID_BME280) := by
    rcases hid with h | h <;> simp [h]
  have hmp : (∃ fuel r, begin fuel bus st = some r) →
      ∃ i, statusRead bus i &&& (1 <<< STATUS_IM_UPDATE) = 0 := by
    rintro ⟨fuel, r, hr⟩
    unfold begin at hr
    rw [if_neg hcond] at hr
    cases hrec : pollStatus bus fuel 0 with
    | none =>
      rw [hrec] at hr
      simp at hr
    | some evs => exact pollStatus_some_clear bus fuel 0 evs hrec
  have hmpr : (∃ i, statusRead bus i &&& (1 <<< STATUS_IM_UPDATE) = 0) →
      ∃ fuel r, begin fuel bus st = some r := by
    rintro ⟨i, hi⟩
    have hsome : (pollStatus bus (i + 1) 0).isSome :=
      pollStatus_isSome bus (i + 1) 0 ⟨i, by omega, by simpa using hi⟩
    cases hrec : pollStatus bus (i + 1) 0 with
    | none =>
      rw [hrec] at hsome
      simp at hsome
    | some evs =>
      have hb : (begin (i + 1) bus st).isSome := by
        unfold begin
        rw [if_neg hcond, hrec]
        rfl
      obtain ⟨r, hr⟩ := Option.isSome_iff_exists.mp hb
      exact ⟨i + 1, r, hr⟩
  refine ⟨⟨hmp, hmpr⟩, fun hall fuel => ?_⟩
  cases hb : begin fuel bus st with
  | none => rfl
  | some r => exact absurd (hmp ⟨fuel, r, hb⟩) (not_exists.mpr hall)

/-- Witness for C9: a BMP280 whose status register reads 0 at once lets
`begin` complete. -/
theorem C9_begin_poll_unbounded_witness :
    (read8val bmpBus BME280_REG_CHIPID = CHIP_ID_BMP280 ∨
     read8val bmpBus BME280_REG_CHIPID = CHIP_ID_BME280) ∧
    (∃ fuel r, begin fuel bmpBus initState = some r) := by
  have h := C9_begin_poll_unbounded bmpBus initState (Or.inl (by decide))
  exact ⟨Or.inl (by decide), h.1.mpr ⟨0, by decide⟩⟩

/-- **C8, counterexample.** A BME280 whose transport fails exactly on the
first temperature-coefficient read: `begin` does not abort and surfaces no
failure — it completes with `true` while the affected coefficient is
silently stored as 0 (the failing `read16` returned 0). -/
theorem C8_transport_failure_counterexample :
    failT1Bus.fail BMX280_REG_DIG_T1 = true ∧
    (begin 1 failT1Bus initState).map (fun r => r.1) = some true ∧
    (begin 1 failT1Bus initState).map (fun r => r.2.1.dig_T1) = some 0 := by
  refine ⟨by decide, by decide, by decide⟩

/-- **C8, amended.** A transport failure during a calibration-coefficient
read is not surfaced: whenever `begin` terminates, its boolean outcome is
`true` exactly when the identity byte was recognized — independent of any
coefficient-read transport failure — and on a recognized device a failing
first-temperature-coefficient read silently stores `dig_T1 = 0`. -/
theorem C8_transport_failure_swallowed (bus : Bus) (st : DriverState)
    (fuel : Nat) (h : (begin fuel bus st).isSome) :
    ((begin fuel bus st).map (fun r => r.1) = some true ↔
      (read8val bus BME280_REG_CHIPID = CHIP_ID_BMP280 ∨
       read8val bus BME280_REG_CHIPID = CHIP_ID_BME280)) ∧
    (bus.fail BMX280_REG_DIG_T1 = true →
      (read8val bus BME280_REG_CHIPID = CHIP_ID_BMP280 ∨
       read8val bus BME280_REG_CHIPID = CHIP_ID_BME280) →
      (begin fuel bus st).map (fun r => r.2.1.dig_T1) = some 0) := by
  by_cases hrec : read8val bus BME280_REG_CHIPID ≠ CHIP_ID_BMP280 ∧
      read8val bus BME280_REG_CHIPID ≠ CHIP_ID_BME280
  · constructor
    · rw [show begin fuel bus st = some (false,
          { st with chipID := read8val bus BME280_REG_CHIPID },
          [Event.readReg BME280_REG_CHIPID 1]) from by unfold begin; rw [if_pos hrec]]
      simp [hrec.1, hrec.2]
    · intro _ hid
      exact absurd hid (by simp [hrec.1, hrec.2])
  · have hid : read8val bus BME280_REG_CHIPID = CHIP_ID_BMP280 ∨
        read8val bus BME280_REG_CHIPID = CHIP_ID_BME280 := by
      rcases not_and_or.mp hrec with h1 | h2
      · exact Or.inl (not_not.mp h1)
      · exact Or.inr (not_not.mp h2)
    cases hp : pollStatus bus fuel 0 with
    | none =>
      exfalso
      rw [show begin fuel bus st = none from by unfold begin; rw [if_neg hrec, hp]] at h
      simp at h
    | some evs =>
      have hb : begin fuel bus st = some (true,
          (readCoefficients bus { st with chipID := read8val bus BME280_REG_CHIPID }).1,
          [Event.readReg BME280_REG_CHIPID 1, write8ev BME280_REG_RESET RESET_KEY] ++
            evs ++
            (readCoefficients bus { st with chipID := read8val bus BME280_REG_CHIPID }).2 ++
            setSampling (readCoefficients bus
                { st with chipID := read8val bus BME280_REG_CHIPID }).1
              BMX280_Mode_e.normal BMX280_Sampling_e.x16 BMX280_Sampling_e.x16
              BMX280_Sampling_e.x16 BMX280_Filter_e.off BMX280_Standby_e.ms0_5) := by
        unfold begin
        rw [if_neg hrec, hp]
      rw [hb]
      refine ⟨by simp [hid], fun hfail _ => ?_⟩
      have hT1 : read16LEval bus BMX280_REG_DIG_T1 = 0 := by
        simp [read16LEval, read16val, hfail]
      by_cases hbme : read8val bus BME280_REG_CHIPID = CHIP_ID_BME280 <;>
        simp [readCoefficients, hbme, hT1]

/-- Witness for the amended C8 at the concrete failing device. -/
theorem C8_transport_failure_swallowed_witness :
    (begin 1 failT1Bus initState).isSome ∧
    failT1Bus.fail BMX280_REG_DIG_T1 = true ∧
    (begin 1 failT1Bus initState).map (fun r => r.2.1.dig_T1) = some 0 := by
  have h := C8_transport_failure_swallowed failT1Bus initState 1 (by decide)
  exact ⟨by decide, by decide, h.2 (by decide) (Or.inr (by decide))⟩

end BMX280
